import Mathlib

/-!
A Midsummer Night: the render-toggle state machine of `processInput`.

Shallow embedding of `processInput` (src/A_Midsummer_Night/main.cpp, lines 171-231)
and of the toggle variables declared in `main` (lines 89-90).

Modelling choices:

* The state is the four variables `processInput` receives by reference
  (`shadow_mode`, `SSR_test`, `SSR_ON`, `scatter_ON`) together with its
  function-local `static double last_change`.
* One call reads the keyboard through `glfwGetKey` (a function `Key → Bool`,
  `true` meaning `GLFW_PRESS`) and the clock through `glfwGetTime`; every clock
  read inside one call returns the same value `now`.
* Times are exact rationals, so `0.4` is the rational `2/5` and the `double`
  rounding of the source is not modelled.
* The `ESCAPE`, `W`, `S`, `A`, `D` blocks (lines 175-185) write only to the
  window-close flag and to the camera; they never touch the five modelled
  variables, so they are the identity on `State`.
-/

namespace MidsummerNight

/-- Keys polled by `processInput`, in the order the source polls them. -/
inductive Key where
  | ESCAPE | W | S | A | D | Q | E | Z | X | C | R
  deriving DecidableEq, Repr

/-- Toggle variables of `main` (lines 89-90) plus the `static double last_change`
of `processInput` (line 173). -/
structure State where
  shadow_mode : Int
  SSR_test : Bool
  SSR_ON : Bool
  scatter_ON : Bool
  last_change : ℚ
  deriving DecidableEq, Repr

/-- Line 174: `const double min_delta_time = 0.4;`. -/
def min_delta_time : ℚ := 0.4

/-- Values at the first call: `shadow_mode = 2`, the three booleans `false`
(lines 89-90) and `last_change = 0.0` (line 173). -/
def initState : State :=
  { shadow_mode := 2, SSR_test := false, SSR_ON := false, scatter_ON := false,
    last_change := 0 }

/-- Lines 175-185: the `ESCAPE`/`W`/`S`/`A`/`D` blocks; no effect on `State`. -/
def blockCamera (_pressed : Key → Bool) (s : State) : State := s

/-- Lines 189-194: the debounce guard `now - last_change >= min_delta_time`
shared by all six toggle blocks. -/
def accepts (now : ℚ) (s : State) : Bool :=
  decide (now - s.last_change ≥ min_delta_time)

/-- Lines 190-193: body of the accepted `Q` branch. -/
def acceptQ (now : ℚ) (s : State) : State :=
  let s1 := { s with last_change := now }
  let s2 := { s1 with SSR_test := !s1.SSR_test }
  if s2.SSR_test then { s2 with SSR_ON := false } else s2

/-- Lines 199-200: body of the accepted `E` branch. -/
def acceptE (now : ℚ) (s : State) : State :=
  let s1 := { s with last_change := now }
  { s1 with SSR_ON := !s1.SSR_ON }

/-- Lines 206-207: body of the accepted `Z` branch. -/
def acceptZ (now : ℚ) (s : State) : State :=
  let s1 := { s with last_change := now }
  { s1 with shadow_mode := 0 }

/-- Lines 213-214: body of the accepted `X` branch. -/
def acceptX (now : ℚ) (s : State) : State :=
  let s1 := { s with last_change := now }
  { s1 with shadow_mode := 1 }

/-- Lines 220-221: body of the accepted `C` branch. -/
def acceptC (now : ℚ) (s : State) : State :=
  let s1 := { s with last_change := now }
  { s1 with shadow_mode := 2 }

/-- Lines 227-228: body of the accepted `R` branch. -/
def acceptR (now : ℚ) (s : State) : State :=
  let s1 := { s with last_change := now }
  { s1 with scatter_ON := !s1.scatter_ON }

/-- Lines 187-195: the `GLFW_KEY_Q` block. -/
def blockQ (pressed : Key → Bool) (now : ℚ) (s : State) : State :=
  if pressed Key.Q then
    if accepts now s then acceptQ now s else s
  else s

/-- Lines 196-202: the `GLFW_KEY_E` block. -/
def blockE (pressed : Key → Bool) (now : ℚ) (s : State) : State :=
  if pressed Key.E then
    if accepts now s then acceptE now s else s
  else s

/-- Lines 203-209: the `GLFW_KEY_Z` block. -/
def blockZ (pressed : Key → Bool) (now : ℚ) (s : State) : State :=
  if pressed Key.Z then
    if accepts now s then acceptZ now s else s
  else s

/-- Lines 210-216: the `GLFW_KEY_X` block. -/
def blockX (pressed : Key → Bool) (now : ℚ) (s : State) : State :=
  if pressed Key.X then
    if accepts now s then acceptX now s else s
  else s

/-- Lines 217-223: the `GLFW_KEY_C` block. -/
def blockC (pressed : Key → Bool) (now : ℚ) (s : State) : State :=
  if pressed Key.C then
    if accepts now s then acceptC now s else s
  else s

/-- Lines 224-230: the `GLFW_KEY_R` block. -/
def blockR (pressed : Key → Bool) (now : ℚ) (s : State) : State :=
  if pressed Key.R then
    if accepts now s then acceptR now s else s
  else s

/-- One call of `processInput` (lines 171-231): the blocks run in source order,
each on the state left by the previous one. -/
def processInput (pressed : Key → Bool) (now : ℚ) (s : State) : State :=
  blockR pressed now
    (blockC pressed now
      (blockX pressed now
        (blockZ pressed now
          (blockE pressed now
            (blockQ pressed now
              (blockCamera pressed s))))))

/-- Line 157 of `print_info` (and line 106 of `main`): `SSR_test && SSR_ON`. -/
def effectiveSSR (s : State) : Bool := s.SSR_test && s.SSR_ON

/-- Successive calls of `processInput` from the render loop (line 118), one
per frame, each with its own pressed keys and timestamp. -/
def runFrames (s : State) : List ((Key → Bool) × ℚ) → State
  | [] => s
  | (pressed, now) :: rest => runFrames (processInput pressed now s) rest

/-- Keyboard on which exactly the key `k` is pressed. -/
def only (k : Key) : Key → Bool := fun j => decide (j = k)

/-- Keys guarded by the debounce timer, in the order of their blocks. -/
def toggleKeys : List Key := [Key.Q, Key.E, Key.Z, Key.X, Key.C, Key.R]

/-- First pressed key in the order Q, E, Z, X, C, R, if any. -/
def firstToggle (pressed : Key → Bool) : Option Key :=
  toggleKeys.find? pressed

/-- Accepted-branch body of the block of key `k`; the identity for the keys
that have no toggle block. -/
def applyToggle (k : Key) (now : ℚ) (s : State) : State :=
  match k with
  | Key.Q => acceptQ now s
  | Key.E => acceptE now s
  | Key.Z => acceptZ now s
  | Key.X => acceptX now s
  | Key.C => acceptC now s
  | Key.R => acceptR now s
  | _ => s

/-- Among the six toggle keys, `k` is pressed and no other one is. -/
def OnlyToggle (k : Key) (pressed : Key → Bool) : Prop :=
  ∀ j ∈ toggleKeys, (pressed j = true ↔ j = k)

instance (k : Key) (pressed : Key → Bool) : Decidable (OnlyToggle k pressed) := by
  unfold OnlyToggle; infer_instance

/-! Shared lemmas. -/

theorem min_delta_time_eq : min_delta_time = 0.4 := rfl

theorem min_delta_time_pos : 0 < min_delta_time := by
  norm_num [min_delta_time]

theorem accepts_iff (now : ℚ) (s : State) :
    accepts now s = true ↔ 0.4 ≤ now - s.last_change := by
  simp [accepts, min_delta_time]

theorem accepts_eq_false_iff (now : ℚ) (s : State) :
    accepts now s = false ↔ now - s.last_change < 0.4 := by
  simp [accepts, min_delta_time]

/-- Once `last_change` equals `now`, the guard fails for the rest of the call. -/
theorem accepts_of_last_change_eq (now : ℚ) (s : State) (h : s.last_change = now) :
    accepts now s = false := by
  rw [accepts_eq_false_iff, h]; norm_num

/-- Rejected call: every block is skipped. -/
theorem processInput_of_not_accepts (pressed : Key → Bool) (now : ℚ) (s : State)
    (h : accepts now s = false) : processInput pressed now s = s := by
  simp [processInput, blockCamera, blockQ, blockE, blockZ, blockX, blockC, blockR, h]

/-- Accepted call: the first pressed toggle key in block order fires and, because
it stores `now` in `last_change`, every later block is skipped. -/
theorem processInput_of_accepts (pressed : Key → Bool) (now : ℚ) (s : State)
    (h : accepts now s = true) :
    processInput pressed now s =
      if pressed Key.Q then acceptQ now s
      else if pressed Key.E then acceptE now s
      else if pressed Key.Z then acceptZ now s
      else if pressed Key.X then acceptX now s
      else if pressed Key.C then acceptC now s
      else if pressed Key.R then acceptR now s
      else s := by
  have hQ : accepts now (acceptQ now s) = false :=
    accepts_of_last_change_eq _ _ (by unfold acceptQ; dsimp only; split <;> rfl)
  have hE : accepts now (acceptE now s) = false := accepts_of_last_change_eq _ _ rfl
  have hZ : accepts now (acceptZ now s) = false := accepts_of_last_change_eq _ _ rfl
  have hX : accepts now (acceptX now s) = false := accepts_of_last_change_eq _ _ rfl
  have hC : accepts now (acceptC now s) = false := accepts_of_last_change_eq _ _ rfl
  unfold processInput blockCamera
  by_cases kQ : pressed Key.Q = true
  · simp [blockQ, blockE, blockZ, blockX, blockC, blockR, kQ, h, hQ]
  by_cases kE : pressed Key.E = true
  · simp [blockQ, blockE, blockZ, blockX, blockC, blockR, kQ, kE, h, hE]
  by_cases kZ : pressed Key.Z = true
  · simp [blockQ, blockE, blockZ, blockX, blockC, blockR, kQ, kE, kZ, h, hZ]
  by_cases kX : pressed Key.X = true
  · simp [blockQ, blockE, blockZ, blockX, blockC, blockR, kQ, kE, kZ, kX, h, hX]
  by_cases kC : pressed Key.C = true
  · simp [blockQ, blockE, blockZ, blockX, blockC, blockR, kQ, kE, kZ, kX, kC, h, hC]
  by_cases kR : pressed Key.R = true
  · simp [blockQ, blockE, blockZ, blockX, blockC, blockR, kQ, kE, kZ, kX, kC, kR, h]
  · simp [blockQ, blockE, blockZ, blockX, blockC, blockR, kQ, kE, kZ, kX, kC, kR]

/-- Field-wise form of the accepted call, for a keyboard with `Q` pressed. -/
theorem processInput_Q (pressed : Key → Bool) (now : ℚ) (s : State)
    (h : accepts now s = true) (hQ : pressed Key.Q = true) :
    processInput pressed now s = acceptQ now s := by
  rw [processInput_of_accepts pressed now s h]; simp [hQ]

/-- Accepted call with `E` pressed and `Q` released. -/
theorem processInput_E (pressed : Key → Bool) (now : ℚ) (s : State)
    (h : accepts now s = true) (hQ : pressed Key.Q = false) (hE : pressed Key.E = true) :
    processInput pressed now s = acceptE now s := by
  rw [processInput_of_accepts pressed now s h]; simp [hQ, hE]

/-- Reading of `OnlyToggle` as six key values. -/
theorem onlyToggle_iff (k : Key) (pressed : Key → Bool) :
    OnlyToggle k pressed ↔
      (pressed Key.Q = true ↔ Key.Q = k) ∧ (pressed Key.E = true ↔ Key.E = k) ∧
      (pressed Key.Z = true ↔ Key.Z = k) ∧ (pressed Key.X = true ↔ Key.X = k) ∧
      (pressed Key.C = true ↔ Key.C = k) ∧ (pressed Key.R = true ↔ Key.R = k) := by
  simp [OnlyToggle, toggleKeys]

/-- Accepted call with only `Z` among the toggle keys. -/
theorem processInput_onlyZ (pressed : Key → Bool) (now : ℚ) (s : State)
    (h : accepts now s = true) (hk : OnlyToggle Key.Z pressed) :
    processInput pressed now s = acceptZ now s := by
  rw [onlyToggle_iff] at hk
  obtain ⟨hQ, hE, hZ, -⟩ := hk
  rw [processInput_of_accepts pressed now s h]
  simp at hQ hE hZ
  simp [hQ, hE, hZ]

/-- Accepted call with only `X` among the toggle keys. -/
theorem processInput_onlyX (pressed : Key → Bool) (now : ℚ) (s : State)
    (h : accepts now s = true) (hk : OnlyToggle Key.X pressed) :
    processInput pressed now s = acceptX now s := by
  rw [onlyToggle_iff] at hk
  obtain ⟨hQ, hE, hZ, hX, -⟩ := hk
  rw [processInput_of_accepts pressed now s h]
  simp at hQ hE hZ hX
  simp [hQ, hE, hZ, hX]

/-- Accepted call with only `C` among the toggle keys. -/
theorem processInput_onlyC (pressed : Key → Bool) (now : ℚ) (s : State)
    (h : accepts now s = true) (hk : OnlyToggle Key.C pressed) :
    processInput pressed now s = acceptC now s := by
  rw [onlyToggle_iff] at hk
  obtain ⟨hQ, hE, hZ, hX, hC, -⟩ := hk
  rw [processInput_of_accepts pressed now s h]
  simp at hQ hE hZ hX hC
  simp [hQ, hE, hZ, hX, hC]

/-- A call keeps `shadow_mode` inside `{0, 1, 2}`. -/
theorem processInput_shadow_mode_range (pressed : Key → Bool) (now : ℚ) (s : State)
    (h : s.shadow_mode = 0 ∨ s.shadow_mode = 1 ∨ s.shadow_mode = 2) :
    (processInput pressed now s).shadow_mode = 0 ∨
      (processInput pressed now s).shadow_mode = 1 ∨
      (processInput pressed now s).shadow_mode = 2 := by
  cases ha : accepts now s
  · rw [processInput_of_not_accepts pressed now s ha]; exact h
  · rw [processInput_of_accepts pressed now s ha]
    split_ifs
    · unfold acceptQ; dsimp only; split <;> exact h
    · exact h
    · exact Or.inl rfl
    · exact Or.inr (Or.inl rfl)
    · exact Or.inr (Or.inr rfl)
    · exact h
    · exact h

/-- The range of `shadow_mode` is preserved along any sequence of calls. -/
theorem runFrames_shadow_mode_range (frames : List ((Key → Bool) × ℚ)) :
    ∀ s : State, (s.shadow_mode = 0 ∨ s.shadow_mode = 1 ∨ s.shadow_mode = 2) →
      ((runFrames s frames).shadow_mode = 0 ∨ (runFrames s frames).shadow_mode = 1 ∨
        (runFrames s frames).shadow_mode = 2) := by
  induction frames with
  | nil => intro s h; exact h
  | cons f rest ih =>
    intro s h
    obtain ⟨pressed, now⟩ := f
    exact ih _ (processInput_shadow_mode_range pressed now s h)

/-- An accepted call with a toggle key pressed stores `now` in `last_change`. -/
theorem processInput_last_change (pressed : Key → Bool) (now : ℚ) (s : State)
    (ha : accepts now s = true) (hk : ∃ k ∈ toggleKeys, pressed k = true) :
    (processInput pressed now s).last_change = now := by
  rw [processInput_of_accepts pressed now s ha]
  obtain ⟨k, hk, hp⟩ := hk
  simp only [toggleKeys, List.mem_cons, List.not_mem_nil, or_false] at hk
  split_ifs
  · unfold acceptQ; dsimp only; split <;> rfl
  · rfl
  · rfl
  · rfl
  · rfl
  · rfl
  · rcases hk with rfl | rfl | rfl | rfl | rfl | rfl
    all_goals (exfalso; simp_all)

/-! Claims. -/

/-- C1 (debounce guard): a call with `now - last_change < 0.4` returns the state
unchanged (all five variables, whatever keys are pressed); a call that changes
the state has one of Q, E, Z, X, C, R pressed and `now - last_change ≥ 0.4`;
and a gap of exactly `0.4` with a toggle key pressed is accepted (`last_change`
becomes `now`, so the state does change). -/
theorem c1_debounce_guard (s : State) (pressed : Key → Bool) (now : ℚ) :
    (now - s.last_change < 0.4 → processInput pressed now s = s) ∧
    (processInput pressed now s ≠ s →
      (∃ k ∈ toggleKeys, pressed k = true) ∧ now - s.last_change ≥ 0.4) ∧
    (now - s.last_change = 0.4 → (∃ k ∈ toggleKeys, pressed k = true) →
      (processInput pressed now s).last_change = now ∧ processInput pressed now s ≠ s) := by
  refine ⟨fun h => ?_, fun hne => ?_, fun hgap hk => ?_⟩
  · exact processInput_of_not_accepts pressed now s ((accepts_eq_false_iff now s).2 h)
  · cases ha : accepts now s
    · exact absurd (processInput_of_not_accepts pressed now s ha) hne
    · refine ⟨?_, (accepts_iff now s).1 ha⟩
      by_contra hno
      simp only [toggleKeys, List.mem_cons, List.mem_singleton, not_exists, not_and] at hno
      apply hne
      rw [processInput_of_accepts pressed now s ha]
      have hQ := hno Key.Q (by simp)
      have hE := hno Key.E (by simp)
      have hZ := hno Key.Z (by simp)
      have hX := hno Key.X (by simp)
      have hC := hno Key.C (by simp)
      have hR := hno Key.R (by simp)
      simp [hQ, hE, hZ, hX, hC, hR]
  · have ha : accepts now s = true := (accepts_iff now s).2 (le_of_eq hgap.symm)
    have hlc : (processInput pressed now s).last_change = now :=
      processInput_last_change pressed now s ha hk
    refine ⟨hlc, fun heq => ?_⟩
    rw [heq] at hlc
    rw [hlc] at hgap
    norm_num at hgap

/-- Instance of C1: `Q` held at `t = 0.3` on the initial state is rejected, and
`Q` held at `t = 0.4` is accepted. -/
theorem c1_debounce_guard_witness :
    ((3 / 10 : ℚ) - initState.last_change < 0.4 ∧
      processInput (only Key.Q) (3 / 10) initState = initState) ∧
    ((2 / 5 : ℚ) - initState.last_change = 0.4 ∧
      (processInput (only Key.Q) (2 / 5) initState).last_change = 2 / 5 ∧
      processInput (only Key.Q) (2 / 5) initState ≠ initState) :=
  ⟨⟨by norm_num [initState],
      (c1_debounce_guard initState (only Key.Q) (3 / 10)).1 (by norm_num [initState])⟩,
    ⟨by norm_num [initState],
      (c1_debounce_guard initState (only Key.Q) (2 / 5)).2.2 (by norm_num [initState])
        ⟨Key.Q, by decide, by decide⟩⟩⟩

/-- C2 (two presses within 0.4 s, shared timer): when a call at `t1` accepts a
toggle (some key among Q, E, Z, X, C, R pressed and `t1 - last_change ≥ 0.4`),
a following call at any `t2` with `t1 ≤ t2 < t1 + 0.4` and any pressed keys
leaves `shadow_mode`, `SSR_test`, `SSR_ON`, `scatter_ON` (and `last_change`) as
they were after the first call. -/
theorem c2_second_press_rejected (s : State) (pressed1 pressed2 : Key → Bool) (t1 t2 : ℚ)
    (hk : ∃ k ∈ toggleKeys, pressed1 k = true) (h1 : t1 - s.last_change ≥ 0.4)
    (h2 : t1 ≤ t2) (h3 : t2 < t1 + 0.4) :
    (processInput pressed2 t2 (processInput pressed1 t1 s)).shadow_mode
        = (processInput pressed1 t1 s).shadow_mode ∧
    (processInput pressed2 t2 (processInput pressed1 t1 s)).SSR_test
        = (processInput pressed1 t1 s).SSR_test ∧
    (processInput pressed2 t2 (processInput pressed1 t1 s)).SSR_ON
        = (processInput pressed1 t1 s).SSR_ON ∧
    (processInput pressed2 t2 (processInput pressed1 t1 s)).scatter_ON
        = (processInput pressed1 t1 s).scatter_ON ∧
    (processInput pressed2 t2 (processInput pressed1 t1 s)).last_change = t1 := by
  have ha : accepts t1 s = true := (accepts_iff t1 s).2 h1
  have hlc : (processInput pressed1 t1 s).last_change = t1 :=
    processInput_last_change pressed1 t1 s ha hk
  have hrej : accepts t2 (processInput pressed1 t1 s) = false := by
    rw [accepts_eq_false_iff, hlc]; linarith
  have _ := h2
  rw [processInput_of_not_accepts pressed2 t2 _ hrej]
  exact ⟨rfl, rfl, rfl, rfl, hlc⟩

/-- Instance of C2: `Z` accepted at `t = 1` on the initial state, then `Q` held
at `t = 1.2` changes nothing (shadow mode stays 0, SSR test stays off). -/
theorem c2_second_press_rejected_witness :
    (processInput (only Key.Q) (6 / 5) (processInput (only Key.Z) 1 initState)).shadow_mode
        = (processInput (only Key.Z) 1 initState).shadow_mode ∧
    (processInput (only Key.Q) (6 / 5) (processInput (only Key.Z) 1 initState)).SSR_test
        = (processInput (only Key.Z) 1 initState).SSR_test ∧
    (processInput (only Key.Q) (6 / 5) (processInput (only Key.Z) 1 initState)).SSR_ON
        = (processInput (only Key.Z) 1 initState).SSR_ON ∧
    (processInput (only Key.Q) (6 / 5) (processInput (only Key.Z) 1 initState)).scatter_ON
        = (processInput (only Key.Z) 1 initState).scatter_ON ∧
    (processInput (only Key.Q) (6 / 5) (processInput (only Key.Z) 1 initState)).last_change
        = 1 :=
  c2_second_press_rejected initState (only Key.Z) (only Key.Q) 1 (6 / 5)
    ⟨Key.Z, by decide, by decide⟩ (by norm_num [initState]) (by norm_num) (by norm_num)

/-- C3, claim as stated fails: on the initial state (`last_change = 0`), a call
at `now = 0.1` with only `Z` pressed ends with `shadow_mode = 2`, not `0`; the
`Z` block is guarded by the same debounce test as every other toggle. -/
theorem c3_counterexample :
    OnlyToggle Key.Z (only Key.Z) ∧
    (processInput (only Key.Z) (1 / 10) initState).shadow_mode = 2 ∧
    (processInput (only Key.Z) (1 / 10) initState).shadow_mode ≠ 0 := by
  have h : processInput (only Key.Z) (1 / 10) initState = initState :=
    processInput_of_not_accepts _ _ _
      ((accepts_eq_false_iff _ _).2 (by norm_num [initState]))
  rw [h]
  exact ⟨by decide, rfl, by decide⟩

/-- C3 amended (shadow-mode selection is debounced like the other toggles): for
every state and every `now` with `now - last_change ≥ 0.4`, a call in which
exactly one of Z, X, C is pressed and no other toggle key ends with
`shadow_mode` equal to 0 for Z, 1 for X, 2 for C; with
`now - last_change < 0.4` the call leaves `shadow_mode` unchanged. -/
theorem c3_shadow_mode_selection (s : State) (pressed : Key → Bool) (now : ℚ) :
    (now - s.last_change ≥ 0.4 →
      (OnlyToggle Key.Z pressed → (processInput pressed now s).shadow_mode = 0) ∧
      (OnlyToggle Key.X pressed → (processInput pressed now s).shadow_mode = 1) ∧
      (OnlyToggle Key.C pressed → (processInput pressed now s).shadow_mode = 2)) ∧
    (now - s.last_change < 0.4 →
      (processInput pressed now s).shadow_mode = s.shadow_mode) := by
  refine ⟨fun h => ?_, fun h => ?_⟩
  · have ha : accepts now s = true := (accepts_iff now s).2 h
    refine ⟨fun hk => ?_, fun hk => ?_, fun hk => ?_⟩
    · rw [processInput_onlyZ pressed now s ha hk]; rfl
    · rw [processInput_onlyX pressed now s ha hk]; rfl
    · rw [processInput_onlyC pressed now s ha hk]; rfl
  · rw [processInput_of_not_accepts pressed now s ((accepts_eq_false_iff now s).2 h)]

/-- Instance of amended C3: from the initial state (mode 2), `Z` at `t = 1`
gives mode 0; on the state with mode 0 and `last_change = 1`, `X` at `t = 2`
gives mode 1 and `C` at `t = 2` gives mode 2, while `X` at `t = 1.1` keeps mode 0. -/
theorem c3_shadow_mode_selection_witness :
    (processInput (only Key.Z) 1 initState).shadow_mode = 0 ∧
    (processInput (only Key.X) 2 { initState with shadow_mode := 0, last_change := 1 }).shadow_mode
      = 1 ∧
    (processInput (only Key.C) 2 { initState with shadow_mode := 0, last_change := 1 }).shadow_mode
      = 2 ∧
    (processInput (only Key.X) (11 / 10)
      { initState with shadow_mode := 0, last_change := 1 }).shadow_mode = 0 :=
  ⟨((c3_shadow_mode_selection initState (only Key.Z) 1).1 (by norm_num [initState])).1
      (by decide),
    ((c3_shadow_mode_selection { initState with shadow_mode := 0, last_change := 1 }
      (only Key.X) 2).1 (by norm_num)).2.1 (by decide),
    ((c3_shadow_mode_selection { initState with shadow_mode := 0, last_change := 1 }
      (only Key.C) 2).1 (by norm_num)).2.2 (by decide),
    (c3_shadow_mode_selection { initState with shadow_mode := 0, last_change := 1 }
      (only Key.X) (11 / 10)).2 (by norm_num)⟩

/-- C4 (arming forces SSR off): for every state with `SSR_test = false` and
every `now` with `now - last_change ≥ 0.4`, a call with `Q` pressed (whatever
else is pressed, `E` included) ends with `SSR_test = true` and `SSR_ON = false`. -/
theorem c4_arming_forces_ssr_off (s : State) (pressed : Key → Bool) (now : ℚ)
    (hT : s.SSR_test = false) (h : now - s.last_change ≥ 0.4)
    (hQ : pressed Key.Q = true) :
    (processInput pressed now s).SSR_test = true ∧
    (processInput pressed now s).SSR_ON = false := by
  rw [processInput_Q pressed now s ((accepts_iff now s).2 h) hQ]
  simp [acceptQ, hT]

/-- Instance of C4: SSR test off, SSR flag on, `Q` and `E` both held at
`t = 1` with `last_change = 0`. -/
theorem c4_arming_forces_ssr_off_witness :
    (processInput (fun k => decide (k = Key.Q ∨ k = Key.E)) 1
      { initState with SSR_ON := true }).SSR_test = true ∧
    (processInput (fun k => decide (k = Key.Q ∨ k = Key.E)) 1
      { initState with SSR_ON := true }).SSR_ON = false :=
  c4_arming_forces_ssr_off { initState with SSR_ON := true }
    (fun k => decide (k = Key.Q ∨ k = Key.E)) 1 rfl (by norm_num [initState]) (by decide)

/-- C5 (toggleSSR flips `SSR_ON` only): for every state and every `now` with
`now - last_change ≥ 0.4`, a call with `E` pressed and `Q` not pressed
(whatever the state of Z, X, C, R) ends with `SSR_ON` negated and with
`SSR_test`, `shadow_mode` and `scatter_ON` unchanged. -/
theorem c5_toggle_ssr_only (s : State) (pressed : Key → Bool) (now : ℚ)
    (h : now - s.last_change ≥ 0.4) (hE : pressed Key.E = true)
    (hQ : pressed Key.Q = false) :
    (processInput pressed now s).SSR_ON = !s.SSR_ON ∧
    (processInput pressed now s).SSR_test = s.SSR_test ∧
    (processInput pressed now s).shadow_mode = s.shadow_mode ∧
    (processInput pressed now s).scatter_ON = s.scatter_ON := by
  rw [processInput_E pressed now s ((accepts_iff now s).2 h) hQ hE]
  exact ⟨rfl, rfl, rfl, rfl⟩

/-- Instance of C5: `E`, `Z` and `R` all held at `t = 1` on the initial state;
only `SSR_ON` changes. -/
theorem c5_toggle_ssr_only_witness :
    (processInput (fun k => decide (k = Key.E ∨ k = Key.Z ∨ k = Key.R)) 1 initState).SSR_ON
      = (!initState.SSR_ON) ∧
    (processInput (fun k => decide (k = Key.E ∨ k = Key.Z ∨ k = Key.R)) 1 initState).SSR_test
      = initState.SSR_test ∧
    (processInput (fun k => decide (k = Key.E ∨ k = Key.Z ∨ k = Key.R)) 1 initState).shadow_mode
      = initState.shadow_mode ∧
    (processInput (fun k => decide (k = Key.E ∨ k = Key.Z ∨ k = Key.R)) 1 initState).scatter_ON
      = initState.scatter_ON :=
  c5_toggle_ssr_only initState (fun k => decide (k = Key.E ∨ k = Key.Z ∨ k = Key.R)) 1
    (by norm_num [initState]) (by decide) (by decide)

/-- C6, claim as stated fails: from the initial state (`last_change = 0`), `Q`
at `t = 0.0` and then `E` at `t = 0.05` are both rejected (`0 - 0 < 0.4` and
`0.05 - 0 < 0.4`), so the state is still the initial one and it is not the
case that `SSR_test = true` and `SSR_ON = true`. -/
theorem c6_counterexample :
    processInput (only Key.E) (1 / 20) (processInput (only Key.Q) 0 initState) = initState ∧
    ¬ ((processInput (only Key.E) (1 / 20) (processInput (only Key.Q) 0 initState)).SSR_test
          = true ∧
        (processInput (only Key.E) (1 / 20) (processInput (only Key.Q) 0 initState)).SSR_ON
          = true) := by
  have hQ : processInput (only Key.Q) 0 initState = initState :=
    processInput_of_not_accepts _ _ _
      ((accepts_eq_false_iff _ _).2 (by norm_num [initState]))
  have hE : processInput (only Key.E) (1 / 20) initState = initState :=
    processInput_of_not_accepts _ _ _
      ((accepts_eq_false_iff _ _).2 (by norm_num [initState]))
  rw [hQ, hE]
  exact ⟨rfl, by decide⟩

/-- C6 amended: from the initial state, `Q` at `t = 0.0`, `E` at `t = 0.05` and
`E` at `t = 0.1` are all rejected and the state stays the initial one
(`SSR_test = false`, `SSR_ON = false`). When instead `Q` is pressed at a time
`t1` with `t1 - 0 ≥ 0.4` and `E` at `t2` with `t2 - t1 ≥ 0.4`, both are accepted
and give `SSR_test = true`, `SSR_ON = true`, and a third `E` at `t3` with
`t3 - t2 < 0.4` is rejected and leaves `SSR_ON = true`. -/
theorem c6_q_e_scenario :
    runFrames initState [(only Key.Q, 0), (only Key.E, 1 / 20), (only Key.E, 1 / 10)]
      = initState ∧
    ∀ t1 t2 t3 : ℚ, t1 - 0 ≥ 0.4 → t2 - t1 ≥ 0.4 → t3 - t2 < 0.4 →
      (runFrames initState [(only Key.Q, t1), (only Key.E, t2)]).SSR_test = true ∧
      (runFrames initState [(only Key.Q, t1), (only Key.E, t2)]).SSR_ON = true ∧
      runFrames initState [(only Key.Q, t1), (only Key.E, t2), (only Key.E, t3)]
        = runFrames initState [(only Key.Q, t1), (only Key.E, t2)] ∧
      (runFrames initState [(only Key.Q, t1), (only Key.E, t2), (only Key.E, t3)]).SSR_ON
        = true := by
  constructor
  · have hQ : processInput (only Key.Q) 0 initState = initState :=
      processInput_of_not_accepts _ _ _
        ((accepts_eq_false_iff _ _).2 (by norm_num [initState]))
    have hE : processInput (only Key.E) (1 / 20) initState = initState :=
      processInput_of_not_accepts _ _ _
        ((accepts_eq_false_iff _ _).2 (by norm_num [initState]))
    have hE2 : processInput (only Key.E) (1 / 10) initState = initState :=
      processInput_of_not_accepts _ _ _
        ((accepts_eq_false_iff _ _).2 (by norm_num [initState]))
    simp only [runFrames, hQ, hE, hE2]
  · intro t1 t2 t3 h1 h2 h3
    have e1 : processInput (only Key.Q) t1 initState = acceptQ t1 initState :=
      processInput_Q _ _ _ ((accepts_iff _ _).2 (by simpa [initState] using h1)) (by decide)
    have e2 : processInput (only Key.E) t2 (acceptQ t1 initState)
        = acceptE t2 (acceptQ t1 initState) :=
      processInput_E _ _ _ ((accepts_iff _ _).2 (by simpa [acceptQ, initState] using h2))
        (by decide) (by decide)
    have e3 : processInput (only Key.E) t3 (acceptE t2 (acceptQ t1 initState))
        = acceptE t2 (acceptQ t1 initState) :=
      processInput_of_not_accepts _ _ _
        ((accepts_eq_false_iff _ _).2 (by simpa [acceptE] using h3))
    simp only [runFrames, e1, e2, e3]
    simp [acceptE, acceptQ, initState]

/-- Instance of amended C6: `Q` at `t = 0.4`, `E` at `t = 0.8`, `E` again at
`t = 0.85`. -/
theorem c6_q_e_scenario_witness :
    (runFrames initState [(only Key.Q, 2 / 5), (only Key.E, 4 / 5)]).SSR_test = true ∧
    (runFrames initState [(only Key.Q, 2 / 5), (only Key.E, 4 / 5)]).SSR_ON = true ∧
    runFrames initState [(only Key.Q, 2 / 5), (only Key.E, 4 / 5), (only Key.E, 17 / 20)]
      = runFrames initState [(only Key.Q, 2 / 5), (only Key.E, 4 / 5)] ∧
    (runFrames initState
      [(only Key.Q, 2 / 5), (only Key.E, 4 / 5), (only Key.E, 17 / 20)]).SSR_ON = true :=
  c6_q_e_scenario.2 (2 / 5) (4 / 5) (17 / 20) (by norm_num) (by norm_num) (by norm_num)

/-- C7 (Z/X/C scenario): from the initial state, for all `t1 t2 t3` with
`t1 - 0 > 0.4`, `t2 - t1 > 0.4`, `t3 - t2 > 0.4`, three calls with only `Z`
pressed at `t1`, only `X` at `t2`, only `C` at `t3` give `shadow_mode` 0, then
1, then 2, and `SSR_test`, `SSR_ON`, `scatter_ON` stay `false` after each call. -/
theorem c7_z_x_c_scenario (pZ pX pC : Key → Bool) (t1 t2 t3 : ℚ)
    (hZ : OnlyToggle Key.Z pZ) (hX : OnlyToggle Key.X pX) (hC : OnlyToggle Key.C pC)
    (h1 : t1 - 0 > 0.4) (h2 : t2 - t1 > 0.4) (h3 : t3 - t2 > 0.4) :
    runFrames initState [(pZ, t1)]
      = { shadow_mode := 0, SSR_test := false, SSR_ON := false, scatter_ON := false,
          last_change := t1 } ∧
    runFrames initState [(pZ, t1), (pX, t2)]
      = { shadow_mode := 1, SSR_test := false, SSR_ON := false, scatter_ON := false,
          last_change := t2 } ∧
    runFrames initState [(pZ, t1), (pX, t2), (pC, t3)]
      = { shadow_mode := 2, SSR_test := false, SSR_ON := false, scatter_ON := false,
          last_change := t3 } := by
  have e1 : processInput pZ t1 initState = acceptZ t1 initState :=
    processInput_onlyZ _ _ _
      ((accepts_iff _ _).2 (by simpa [initState] using le_of_lt h1)) hZ
  have e2 : processInput pX t2 (acceptZ t1 initState) = acceptX t2 (acceptZ t1 initState) :=
    processInput_onlyX _ _ _
      ((accepts_iff _ _).2 (by simpa [acceptZ] using le_of_lt h2)) hX
  have e3 : processInput pC t3 (acceptX t2 (acceptZ t1 initState))
      = acceptC t3 (acceptX t2 (acceptZ t1 initState)) :=
    processInput_onlyC _ _ _
      ((accepts_iff _ _).2 (by simpa [acceptX] using le_of_lt h3)) hC
  simp only [runFrames, e1, e2, e3]
  exact ⟨rfl, rfl, rfl⟩

/-- Instance of C7: `Z` at `t = 1`, `X` at `t = 2`, `C` at `t = 3`. -/
theorem c7_z_x_c_scenario_witness :
    runFrames initState [(only Key.Z, 1)]
      = { shadow_mode := 0, SSR_test := false, SSR_ON := false, scatter_ON := false,
          last_change := 1 } ∧
    runFrames initState [(only Key.Z, 1), (only Key.X, 2)]
      = { shadow_mode := 1, SSR_test := false, SSR_ON := false, scatter_ON := false,
          last_change := 2 } ∧
    runFrames initState [(only Key.Z, 1), (only Key.X, 2), (only Key.C, 3)]
      = { shadow_mode := 2, SSR_test := false, SSR_ON := false, scatter_ON := false,
          last_change := 3 } :=
  c7_z_x_c_scenario (only Key.Z) (only Key.X) (only Key.C) 1 2 3
    (by decide) (by decide) (by decide) (by norm_num) (by norm_num) (by norm_num)

/-- C8 (shadow-mode invariant): in every state reached from the initial state
by any finite sequence of `processInput` calls, with arbitrary pressed keys and
arbitrary timestamps, `shadow_mode` is one of 0, 1, 2. -/
theorem c8_shadow_mode_invariant (frames : List ((Key → Bool) × ℚ)) :
    (runFrames initState frames).shadow_mode = 0 ∨
    (runFrames initState frames).shadow_mode = 1 ∨
    (runFrames initState frames).shadow_mode = 2 :=
  runFrames_shadow_mode_range frames initState (Or.inr (Or.inr rfl))

/-- C9 (at most one toggle per call, fixed key priority): with
`now - last_change < 0.4` no toggle is applied; with `now - last_change ≥ 0.4`
the call applies nothing when no toggle key is pressed, and otherwise applies
exactly the accepted-branch body of the first pressed key `k` in the order
Q, E, Z, X, C, R, which is also the result of the call in which only `k` is
pressed: every other held key is ignored. -/
theorem c9_one_toggle_per_call (s : State) (pressed : Key → Bool) (now : ℚ) :
    (now - s.last_change < 0.4 → processInput pressed now s = s) ∧
    (now - s.last_change ≥ 0.4 →
      (firstToggle pressed = none → processInput pressed now s = s) ∧
      (∀ k, firstToggle pressed = some k →
        processInput pressed now s = applyToggle k now s ∧
        processInput pressed now s = processInput (only k) now s)) := by
  refine ⟨fun h => ?_, fun h => ?_⟩
  · exact processInput_of_not_accepts pressed now s ((accepts_eq_false_iff now s).2 h)
  · have ha : accepts now s = true := (accepts_iff now s).2 h
    rw [processInput_of_accepts pressed now s ha]
    by_cases kQ : pressed Key.Q = true
    · refine ⟨fun hn => ?_, fun k hk => ?_⟩
      · simp [firstToggle, toggleKeys, List.find?, kQ] at hn
      · simp [firstToggle, toggleKeys, List.find?, kQ] at hk
        subst hk
        rw [processInput_of_accepts (only Key.Q) now s ha]
        simp [kQ, applyToggle, only]
    by_cases kE : pressed Key.E = true
    · refine ⟨fun hn => ?_, fun k hk => ?_⟩
      · simp [firstToggle, toggleKeys, List.find?, kQ, kE] at hn
      · simp [firstToggle, toggleKeys, List.find?, kQ, kE] at hk
        subst hk
        rw [processInput_of_accepts (only Key.E) now s ha]
        simp [kQ, kE, applyToggle, only]
    by_cases kZ : pressed Key.Z = true
    · refine ⟨fun hn => ?_, fun k hk => ?_⟩
      · simp [firstToggle, toggleKeys, List.find?, kQ, kE, kZ] at hn
      · simp [firstToggle, toggleKeys, List.find?, kQ, kE, kZ] at hk
        subst hk
        rw [processInput_of_accepts (only Key.Z) now s ha]
        simp [kQ, kE, kZ, applyToggle, only]
    by_cases kX : pressed Key.X = true
    · refine ⟨fun hn => ?_, fun k hk => ?_⟩
      · simp [firstToggle, toggleKeys, List.find?, kQ, kE, kZ, kX] at hn
      · simp [firstToggle, toggleKeys, List.find?, kQ, kE, kZ, kX] at hk
        subst hk
        rw [processInput_of_accepts (only Key.X) now s ha]
        simp [kQ, kE, kZ, kX, applyToggle, only]
    by_cases kC : pressed Key.C = true
    · refine ⟨fun hn => ?_, fun k hk => ?_⟩
      · simp [firstToggle, toggleKeys, List.find?, kQ, kE, kZ, kX, kC] at hn
      · simp [firstToggle, toggleKeys, List.find?, kQ, kE, kZ, kX, kC] at hk
        subst hk
        rw [processInput_of_accepts (only Key.C) now s ha]
        simp [kQ, kE, kZ, kX, kC, applyToggle, only]
    by_cases kR : pressed Key.R = true
    · refine ⟨fun hn => ?_, fun k hk => ?_⟩
      · simp [firstToggle, toggleKeys, List.find?, kQ, kE, kZ, kX, kC, kR] at hn
      · simp [firstToggle, toggleKeys, List.find?, kQ, kE, kZ, kX, kC, kR] at hk
        subst hk
        rw [processInput_of_accepts (only Key.R) now s ha]
        simp [kQ, kE, kZ, kX, kC, kR, applyToggle, only]
    · refine ⟨fun _ => ?_, fun k hk => ?_⟩
      · simp [kQ, kE, kZ, kX, kC, kR]
      · simp [firstToggle, toggleKeys, List.find?, kQ, kE, kZ, kX, kC, kR] at hk

/-- Instance of C9: all six toggle keys held at `t = 1` on the initial state act
as `Q` alone; `Z`, `C` and `R` held together act as `Z` alone; at `t = 0.1`
nothing happens. -/
theorem c9_one_toggle_per_call_witness :
    (processInput (fun _ => true) 1 initState = applyToggle Key.Q 1 initState ∧
      processInput (fun _ => true) 1 initState = processInput (only Key.Q) 1 initState) ∧
    (processInput (fun k => decide (k = Key.Z ∨ k = Key.C ∨ k = Key.R)) 1 initState
        = applyToggle Key.Z 1 initState ∧
      processInput (fun k => decide (k = Key.Z ∨ k = Key.C ∨ k = Key.R)) 1 initState
        = processInput (only Key.Z) 1 initState) ∧
    processInput (fun _ => true) (1 / 10) initState = initState :=
  ⟨((c9_one_toggle_per_call initState (fun _ => true) 1).2 (by norm_num [initState])).2
      Key.Q (by decide),
    ((c9_one_toggle_per_call initState (fun k => decide (k = Key.Z ∨ k = Key.C ∨ k = Key.R))
      1).2 (by norm_num [initState])).2 Key.Z (by decide),
    (c9_one_toggle_per_call initState (fun _ => true) (1 / 10)).1 (by norm_num [initState])⟩

/-- C10 (effective SSR can only be switched on by E): when `SSR_test && SSR_ON`
is false before a call and true after it, then `E` was pressed, `Q` was not
pressed, `now - last_change ≥ 0.4` and `SSR_test` was already true; and a call
in which `Q` is accepted (pressed with `now - last_change ≥ 0.4`) ends with
`SSR_test && SSR_ON` false, from every state. -/
theorem c10_effective_ssr_only_by_e (s : State) (pressed : Key → Bool) (now : ℚ) :
    (effectiveSSR s = false → effectiveSSR (processInput pressed now s) = true →
      pressed Key.E = true ∧ pressed Key.Q = false ∧ now - s.last_change ≥ 0.4 ∧
        s.SSR_test = true) ∧
    (pressed Key.Q = true → now - s.last_change ≥ 0.4 →
      effectiveSSR (processInput pressed now s) = false) := by
  refine ⟨fun h0 h1 => ?_, fun hQ h => ?_⟩
  · cases ha : accepts now s
    · rw [processInput_of_not_accepts pressed now s ha, h0] at h1
      exact absurd h1 (by decide)
    · have hge := (accepts_iff now s).1 ha
      rw [processInput_of_accepts pressed now s ha] at h1
      cases hT : s.SSR_test <;> cases hO : s.SSR_ON <;>
        cases kQ : pressed Key.Q <;> cases kE : pressed Key.E <;>
        simp_all [effectiveSSR, acceptQ, acceptE, acceptZ, acceptX, acceptC, acceptR] <;>
        (split_ifs at h1 <;> simp_all)
  · rw [processInput_Q pressed now s ((accepts_iff now s).2 h) hQ]
    cases hT : s.SSR_test <;> simp [effectiveSSR, acceptQ, hT]

/-- Instance of C10: with SSR test armed and SSR off, `E` at `t = 1` switches
effective SSR on; with both flags on, `Q` at `t = 1` switches it off. -/
theorem c10_effective_ssr_only_by_e_witness :
    (effectiveSSR { initState with SSR_test := true } = false ∧
      effectiveSSR (processInput (only Key.E) 1 { initState with SSR_test := true }) = true ∧
      only Key.E Key.E = true ∧ only Key.E Key.Q = false ∧
      (1 : ℚ) - ({ initState with SSR_test := true } : State).last_change ≥ 0.4 ∧
      ({ initState with SSR_test := true } : State).SSR_test = true) ∧
    effectiveSSR (processInput (only Key.Q) 1
      { initState with SSR_test := true, SSR_ON := true }) = false := by
  have hE : effectiveSSR (processInput (only Key.E) 1 { initState with SSR_test := true })
      = true := by
    rw [processInput_E _ _ _ ((accepts_iff _ _).2 (by norm_num [initState])) (by decide)
      (by decide)]
    rfl
  exact ⟨⟨rfl, hE,
      (c10_effective_ssr_only_by_e { initState with SSR_test := true } (only Key.E) 1).1 rfl hE⟩,
    (c10_effective_ssr_only_by_e { initState with SSR_test := true, SSR_ON := true }
      (only Key.Q) 1).2 (by decide) (by norm_num [initState])⟩

end MidsummerNight
